import Mathlib

/- A shallow embedding of src/model.py from the char-parrot repository: a
   character-level recurrent language model (LSTM or GRU cell) with training,
   generation and checkpoint loading.  Tensors are modelled as a shape plus
   row-major rational data plus an autograd flag; the numeric kernels of the
   external tensor library (recurrent cells, dropout, linear projection,
   softmax, cross entropy, optimizer) are parameters of the embedding, since
   the spec treats that layer as an external collaborator. -/

/-- Model of a library tensor: a shape, row-major rational data, and a flag
recording whether the tensor is attached to the differentiation graph. -/
structure Tensor where
  dims : List Nat
  data : List Rat
  grad : Bool
  deriving DecidableEq

/-- torch.zeros: a fresh zero-filled tensor, outside the differentiation graph. -/
def Tensor.zeros (dims : List Nat) : Tensor :=
  { dims := dims, data := List.replicate dims.prod 0, grad := false }

/-- Tensor.detach: returns a copy severed from the differentiation graph,
with the same shape and numeric values.  It is NOT in place: the receiver is
left unchanged by the library call. -/
def Tensor.detach (t : Tensor) : Tensor :=
  { t with grad := false }

/-- Tensor.unsqueeze(0): prepend a batch dimension of size one. -/
def Tensor.unsqueeze0 (t : Tensor) : Tensor :=
  { t with dims := 1 :: t.dims }

/-- Tensor.squeeze(1): drop dimension one when it has extent one. -/
def Tensor.squeeze1 (t : Tensor) : Tensor :=
  match t.dims with
  | d0 :: 1 :: rest => { t with dims := d0 :: rest }
  | _ => t

/-- Division of a tensor by a scalar, entrywise. -/
def Tensor.divScalar (t : Tensor) (q : Rat) : Tensor :=
  { t with data := t.data.map (fun a => a / q) }

/-- Whether every entry of the tensor is zero. -/
def Tensor.isZeros (t : Tensor) : Bool :=
  t.data.all (fun q => decide (q = 0))

/-- torch.chunk(t, k, 1)[-1]: the last of the k chunks obtained by splitting
dimension one.  Following the library contract, each full chunk has extent
ceil(L / k) along dimension one and fewer than k chunks may be produced; the
last chunk holds the remainder.  torch.chunk raises for k = 0; this
definition is only applied under k being at least one. -/
def Tensor.chunkLastDim1 (t : Tensor) (k : Nat) : Tensor :=
  match t.dims with
  | d0 :: L :: rest =>
    let s := (L + k - 1) / k
    let count := (L + s - 1) / s
    let start := (count - 1) * s
    let len := L - start
    let R := rest.prod
    { dims := d0 :: len :: rest
      data := (List.range d0).flatMap
        (fun i => ((t.data.drop (i * (L * R) + start * R)).take (len * R)))
      grad := t.grad }
  | _ => t

/-- The external tensor-library callables used by the two models: the
recurrent kernels of nn.LSTM and nn.GRU, the nn.Dropout application and the
nn.Linear projection.  Their computation is external to the source under
verification, so it is passed in as an environment. -/
structure TorchOps where
  lstm_cell : Tensor → Tensor × Tensor → Tensor × (Tensor × Tensor)
  gru_cell : Tensor → Tensor → Tensor × Tensor
  drop : Tensor → Tensor
  lin : Tensor → Tensor

/-- Long Short-Term Memory model (class LSTMnet in src/model.py).  The
nn.LSTM, nn.Dropout and nn.Linear submodules live in the external library;
their configuration is recorded as fields and their computation is supplied
through TorchOps. -/
structure LSTMnet where
  input_size : Nat
  output_size : Nat
  hidden_size : Nat
  batch_size : Nat
  nb_layers : Nat
  hidden : Tensor × Tensor
  lstm_dropout : Rat
  dropout_p : Rat

/-- LSTMnet._make_hidden: a fresh (data zeroed) hidden and cell state tuple
with a specific batch size. -/
def LSTMnet.make_hidden (m : LSTMnet) (batch_size : Nat) : Tensor × Tensor :=
  (Tensor.zeros [m.nb_layers, batch_size, m.hidden_size],
   Tensor.zeros [m.nb_layers, batch_size, m.hidden_size])

/-- LSTMnet.__init__: records the module configuration; the hidden state is
built zeroed at the construction batch size, and the internal nn.LSTM dropout
argument is the requested dropout only when nb_layers exceeds one, else 0. -/
def LSTMnet.init (input_size output_size hidden_size batch_size nb_layers : Nat)
    (dropout : Rat) : LSTMnet :=
  { input_size := input_size
    output_size := output_size
    hidden_size := hidden_size
    batch_size := batch_size
    nb_layers := nb_layers
    hidden := (Tensor.zeros [nb_layers, batch_size, hidden_size],
               Tensor.zeros [nb_layers, batch_size, hidden_size])
    lstm_dropout := if nb_layers > 1 then dropout else 0
    dropout_p := dropout }

/-- LSTMnet.detach_hidden: detach the hidden state, and optionally zero the
hidden data.  In the source the else branch is the bare expression
self.hidden[0].detach() whose result is discarded: Tensor.detach is not in
place, so the stored hidden tuple is left untouched in that branch. -/
def LSTMnet.detach_hidden (m : LSTMnet) (zero : Bool) : LSTMnet :=
  if zero then
    { m with hidden := m.make_hidden m.batch_size }
  else
    let _ := m.hidden.1.detach
    m

/-- LSTMnet.set_mode: set the hidden size and zero the data for either batch
training or generation; any other mode falls through both branches. -/
def LSTMnet.set_mode (m : LSTMnet) (mode : String) : LSTMnet :=
  if mode = "train" then
    { m with hidden := m.make_hidden m.batch_size }
  else if mode = "generate" then
    { m with hidden := m.make_hidden 1 }
  else
    m

/-- LSTMnet.forward: run the recurrent kernel, store the end-of-sequence
hidden state, call detach_hidden (with its default zero=False), then apply
dropout and the output projection. -/
def LSTMnet.forward (ops : TorchOps) (m : LSTMnet) (x : Tensor) :
    Tensor × LSTMnet :=
  let r := ops.lstm_cell x m.hidden
  let m1 : LSTMnet := { m with hidden := r.2 }
  let m2 := m1.detach_hidden false
  (ops.lin (ops.drop r.1), m2)

/-- Gated Recurrent Unit model (class GRUnet in src/model.py). -/
structure GRUnet where
  input_size : Nat
  output_size : Nat
  hidden_size : Nat
  batch_size : Nat
  nb_layers : Nat
  hidden : Tensor
  gru_dropout : Rat
  dropout_p : Rat

/-- GRUnet._make_hidden: a fresh (data zeroed) hidden state tensor with a
specific batch size. -/
def GRUnet.make_hidden (m : GRUnet) (batch_size : Nat) : Tensor :=
  Tensor.zeros [m.nb_layers, batch_size, m.hidden_size]

/-- GRUnet.__init__: as LSTMnet.__init__, with one hidden tensor and the
internal nn.GRU dropout argument forced to 0 when nb_layers is one. -/
def GRUnet.init (input_size output_size hidden_size batch_size nb_layers : Nat)
    (dropout : Rat) : GRUnet :=
  { input_size := input_size
    output_size := output_size
    hidden_size := hidden_size
    batch_size := batch_size
    nb_layers := nb_layers
    hidden := Tensor.zeros [nb_layers, batch_size, hidden_size]
    gru_dropout := if nb_layers > 1 then dropout else 0
    dropout_p := dropout }

/-- GRUnet.detach_hidden: here the else branch reassigns
self.hidden = self.hidden.detach(), so the stored hidden state really is
severed from the differentiation graph. -/
def GRUnet.detach_hidden (m : GRUnet) (zero : Bool) : GRUnet :=
  if zero then
    { m with hidden := m.make_hidden m.batch_size }
  else
    { m with hidden := m.hidden.detach }

/-- GRUnet.set_mode: as LSTMnet.set_mode. -/
def GRUnet.set_mode (m : GRUnet) (mode : String) : GRUnet :=
  if mode = "train" then
    { m with hidden := m.make_hidden m.batch_size }
  else if mode = "generate" then
    { m with hidden := m.make_hidden 1 }
  else
    m

/-- GRUnet.forward: as LSTMnet.forward over the GRU kernel. -/
def GRUnet.forward (ops : TorchOps) (m : GRUnet) (x : Tensor) :
    Tensor × GRUnet :=
  let r := ops.gru_cell x m.hidden
  let m1 : GRUnet := { m with hidden := r.2 }
  let m2 := m1.detach_hidden false
  (ops.lin (ops.drop r.1), m2)

/-- The model held by a CharParrot: one of the two cell variants, selected at
construction from the model_type string. -/
inductive RNN where
  | lstm : LSTMnet → RNN
  | gru : GRUnet → RNN

/-- Dynamic dispatch of set_mode over the selected variant. -/
def RNN.set_mode (m : RNN) (mode : String) : RNN :=
  match m with
  | .lstm net => .lstm (net.set_mode mode)
  | .gru net => .gru (net.set_mode mode)

/-- Dynamic dispatch of detach_hidden over the selected variant. -/
def RNN.detach_hidden (m : RNN) (zero : Bool) : RNN :=
  match m with
  | .lstm net => .lstm (net.detach_hidden zero)
  | .gru net => .gru (net.detach_hidden zero)

/-- Dynamic dispatch of the forward pass over the selected variant. -/
def RNN.forward (ops : TorchOps) (m : RNN) (x : Tensor) : Tensor × RNN :=
  match m with
  | .lstm net =>
    let r := net.forward ops x
    (r.1, .lstm r.2)
  | .gru net =>
    let r := net.forward ops x
    (r.1, .gru r.2)

/-- The list of hidden tensors held by the model: two for the LSTM variant,
one for the GRU variant. -/
def RNN.hiddenList (m : RNN) : List Tensor :=
  match m with
  | .lstm net => [net.hidden.1, net.hidden.2]
  | .gru net => [net.hidden]

/-- Modelled from the spec: the character vocabulary (class CharData of
chardata.py, a source file of this repository that is not under src/).  An
ordered list of distinct characters derived from the corpus, read-only after
construction; nb_characters is its size. -/
structure CharData where
  characters : List Char

/-- Size of the vocabulary. -/
def CharData.nb_characters (cd : CharData) : Nat :=
  cd.characters.length

/-- Index of a character in the vocabulary, scanning from position k. -/
def indexFrom (c : Char) : List Char → Nat → Option Nat
  | [], _ => none
  | a :: as, k => if a = c then some k else indexFrom c as (k + 1)

/-- Modelled from the spec: encode maps each character through the
vocabulary and fails (UnknownCharacterError) when a character was not
present during construction; failure is rendered as none. -/
def CharData.encode (cd : CharData) : List Char → Option (List Nat)
  | [] => some []
  | c :: cs =>
    match indexFrom c cd.characters 0, CharData.encode cd cs with
    | some i, some rest => some (i :: rest)
    | _, _ => none

/-- Modelled from the spec: make_sequence produces the model-input
representation for an arbitrary string (here in one-hot form, one row of
extent nb_characters per character), failing on characters outside the
vocabulary. -/
def CharData.make_sequence (cd : CharData) (text : List Char) : Option Tensor :=
  (cd.encode text).map (fun idxs =>
    { dims := [text.length, cd.nb_characters]
      data := idxs.flatMap (fun i =>
        (List.range cd.nb_characters).map (fun j => if j = i then (1 : Rat) else 0))
      grad := false })

/-- Modelled from the spec: the Stream Batcher (class CharDataLoader of
chardata.py, not under src/).  It owns the encoded corpus, carved into a
deterministic, replayable sequence of nb_windows (input window, target)
mini-batches; pos is the cursor of how many windows have been consumed.
Exhaustion beyond nb_windows is an invariant violation that the trainer
never triggers, so the window sequence is kept total here. -/
structure CharDataLoader where
  chardata : CharData
  time_steps : Nat
  batch_size : Nat
  nb_windows : Nat
  windows : Nat → Tensor × Tensor
  pos : Nat

/-- CharDataLoader.reset: rewind all lane cursors to the start; the corpus
and vocabulary are untouched. -/
def CharDataLoader.reset (dl : CharDataLoader) : CharDataLoader :=
  { dl with pos := 0 }

/-- len(dataloader): number of windows obtainable in one pass. -/
def CharDataLoader.len (dl : CharDataLoader) : Nat :=
  dl.nb_windows

/-- dataloader(): return the next (sequence, target) batch and advance the
cursor. -/
def CharDataLoader.call (dl : CharDataLoader) :
    (Tensor × Tensor) × CharDataLoader :=
  (dl.windows dl.pos, { dl with pos := dl.pos + 1 })

/-- A state dict: the learnable parameters of the nn submodules (or the
moments of the optimizer), as collected by state_dict(). -/
abbrev StateDict := List (String × Tensor)

/-- The blob written by torch.save in CharParrot.save: the model state dict
and the optimizer state dict. -/
structure Checkpoint where
  model : StateDict
  optimizer : StateDict

/-- The ways the embedded operations terminate a run abnormally:
exit(code) - a SystemExit - or the FileNotFoundError named by the spec. -/
inductive PyExc where
  | systemExit : Nat → PyExc
  | fileNotFound : PyExc
  deriving DecidableEq

/-- Whether a fallible result failed specifically with FileNotFoundError. -/
def isFileNotFound {α : Type} : Except PyExc α → Bool
  | .error .fileNotFound => true
  | _ => false

/-- Class CharParrot of src/model.py: a character-level language model using
a GRU- or LSTM-based RNN.  The parameters of the nn submodules and the
optimizer moments are carried as state dicts; the corpus file reading and
model-type dispatch of __init__ are external input handling, so states of
this structure are quantified over directly. -/
structure CharParrot where
  dataloader : CharDataLoader
  save_file : Option String
  model : RNN
  zero_hidden : Bool
  model_params : StateDict
  optimizer_state : StateDict

/-- Python text[-prev_chars:]: the last prev_chars characters, or the whole
text when prev_chars is zero (minus zero is zero in Python slicing). -/
def pyTakeLast {α : Type} (prev_chars : Nat) (xs : List α) : List α :=
  if prev_chars = 0 then xs else xs.drop (xs.length - prev_chars)

/-- The generation loop body of CharParrot.generate, iterated length times:
take the last prev_chars characters of the buffer, encode them (none on an
unknown character), run one forward pass, slice the last chunk of the
outputs, squeeze it, divide by the temperature, then draw one vocabulary
index.  The softmax-and-multinomial draw runs in the external library and is
supplied as the sample argument; an out-of-range index (impossible for the
real multinomial over vocabulary-size logits) is a Python IndexError,
rendered as none. -/
def generateLoop (ops : TorchOps) (sample : Tensor → Nat) (cd : CharData)
    (prev_chars : Nat) (temperature : Rat) :
    RNN → List Char → Nat → Option (List Char × RNN)
  | model, text, 0 => some (text, model)
  | model, text, n + 1 =>
    let prediction_text := pyTakeLast prev_chars text
    match cd.make_sequence prediction_text with
    | none => none
    | some sequence =>
      let inputs := sequence.unsqueeze0
      let r := RNN.forward ops model inputs
      let output := (r.1.chunkLastDim1 prev_chars).squeeze1
      let output2 := output.divScalar temperature
      let prediction := sample output2
      match cd.characters.get? prediction with
      | none => none
      | some ch => generateLoop ops sample cd prev_chars temperature r.2 (text ++ [ch]) n

/-- CharParrot.generate: set the model to generation mode, grow the buffer
from the seed by length sampled characters, writing it to stdout as it
grows.  The function body has no return statement, so the Python return
value is None: the middle component of the result.  The whole loop runs
under torch.no_grad.  A raised exception (unknown seed character) is none. -/
def CharParrot.generate (ops : TorchOps) (sample : Tensor → Nat)
    (p : CharParrot) (seed : List Char) (length prev_chars : Nat)
    (temperature : Rat) :
    Option (List Char × Option (List Char) × CharParrot) :=
  let model := p.model.set_mode ("generate")
  (generateLoop ops sample p.dataloader.chardata prev_chars temperature
      model seed length).map
    (fun r => (r.1, none, { p with model := r.2 }))

/-- The training loss expression of CharParrot.train:
criterion(torch.chunk(outputs, time_steps, 1)[-1].squeeze(1), target), with
criterion the nn.CrossEntropyLoss instance held by the CharParrot (the cross
entropy numerics run in the external library). -/
def windowLoss (criterion : Tensor → Tensor → Rat) (time_steps : Nat)
    (outputs target : Tensor) : Rat :=
  criterion ((outputs.chunkLastDim1 time_steps).squeeze1) target

/-- The external callables used by CharParrot.train: the kernels of the nn
submodules, the nn.CrossEntropyLoss instance, and the combined effect of
loss.backward() plus optimizer.step() on the parameter and optimizer state
dicts given the loss (optimizer.zero_grad() clears the gradient buffers,
which live inside the library and have no separate rendering here). -/
structure TrainEnv where
  ops : TorchOps
  criterion : Tensor → Tensor → Rat
  opt_update : StateDict → StateDict → Rat → StateDict × StateDict

/-- One iteration of the inner loop of CharParrot.train: detach (optionally
zero) the hidden state, clear gradients, draw the next batch, forward pass,
final-chunk cross entropy loss, backpropagate and step the optimizer,
accumulate the running loss. -/
def runWindow (env : TrainEnv) (p : CharParrot) (running_loss : Rat) :
    CharParrot × Rat :=
  let model := p.model.detach_hidden p.zero_hidden
  let b := p.dataloader.call
  let sequence := b.1.1
  let target := b.1.2
  let dataloader := b.2
  let r := RNN.forward env.ops model sequence
  let loss := windowLoss env.criterion dataloader.time_steps r.1 target
  let u := env.opt_update p.model_params p.optimizer_state loss
  ({ p with model := r.2, dataloader := dataloader,
            model_params := u.1, optimizer_state := u.2 },
   running_loss + loss)

/-- The inner loop of one epoch, iterated over the batch count captured at
epoch start. -/
def iterWindows (env : TrainEnv) : Nat → CharParrot × Rat → CharParrot × Rat
  | 0, s => s
  | n + 1, s => iterWindows env n (runWindow env s.1 s.2)

/-- One epoch of CharParrot.train: run len(dataloader) windows starting from
running_loss = 0.0, then reset the dataloader. -/
def runEpoch (env : TrainEnv) (p : CharParrot) : CharParrot × Rat :=
  let s := iterWindows env p.dataloader.len (p, 0)
  ({ s.1 with dataloader := s.1.dataloader.reset }, s.2)

/-- The epoch loop of CharParrot.train, left to right. -/
def runEpochs (env : TrainEnv) : Nat → CharParrot × Rat → CharParrot × Rat
  | 0, s => s
  | n + 1, s => runEpochs env n (runEpoch env s.1)

/-- The two statements CharParrot.train executes before its epoch loop:
self.model.set_mode(train) and self.dataloader.reset(). -/
def trainInit (p : CharParrot) : CharParrot :=
  { p with model := p.model.set_mode ("train"),
           dataloader := p.dataloader.reset }

/-- CharParrot.train: initialization once, then the epoch loop; the result
carries the final state and the last running loss.  The optional save and
the final print are external file and console output. -/
def CharParrot.train (env : TrainEnv) (p : CharParrot) (epochs : Nat) :
    CharParrot × Rat :=
  runEpochs env epochs (trainInit p, 0)

/-- The CharParrot state at the instant the window loop of (one-based) epoch
k begins inside CharParrot.train: initialization followed by k - 1 complete
epochs. -/
def trainEpochStart (env : TrainEnv) (p : CharParrot) (k : Nat) : CharParrot :=
  (runEpochs env (k - 1) (trainInit p, 0)).1

/-- CharParrot.load: when os.path.isfile fails the source prints an error
and calls exit(1) - a SystemExit with status one - and otherwise
torch.load reads the checkpoint and both state dicts are restored in place.
The file system is the external collaborator fs, mapping a path to the
checkpoint stored there, if any. -/
def CharParrot.load (fs : String → Option Checkpoint) (p : CharParrot)
    (load_file : String) : Except PyExc CharParrot :=
  match fs load_file with
  | none => .error (.systemExit 1)
  | some state =>
    .ok { p with model_params := state.model,
                 optimizer_state := state.optimizer }

/-- Modelled from the library contract stated by the spec: the recurrent
modules warn that a nonzero inter-layer dropout parameter is
undefined-or-ignored exactly when nb_layers is one. -/
def rnn_dropout_warning (nb_layers : Nat) (dropout : Rat) : Bool :=
  decide (0 < dropout) && decide (nb_layers = 1)

/-- The entries of the final timestep of a (batch, time, vocabulary) logits
tensor, exactly as the spec words the training loss input: the prediction at
the final timestep of the window, one row of vocabulary size per batch
lane. -/
def specFinalTimestep (t : Tensor) : Tensor :=
  match t.dims with
  | [b, L, n] =>
    { dims := [b, n]
      data := (List.range b).flatMap (fun i =>
        (List.range n).map (fun j => t.data.getD (i * (L * n) + (L - 1) * n + j) 0))
      grad := t.grad }
  | _ => t

/-- A one-character vocabulary for concrete runs. -/
def cd0 : CharData := { characters := ['a'] }

/-- Library callables where each kernel is as plain as possible: cells hand
the hidden state through and dropout and the projection are identity. -/
def idOps : TorchOps :=
  { lstm_cell := fun _ h => (h.1, h)
    gru_cell := fun x h => (x, h)
    drop := fun t => t
    lin := fun t => t }

/-- Library callables of a grad-enabled autograd run: every kernel result is
attached to the differentiation graph, as during a training step. -/
def gradOps : TorchOps :=
  { lstm_cell := fun x h =>
      ({ x with grad := true }, ({ h.1 with grad := true }, { h.2 with grad := true }))
    gru_cell := fun x h => ({ x with grad := true }, { h with grad := true })
    drop := fun t => t
    lin := fun t => t }

/-- Library callables whose recurrent kernels move the hidden state to all
ones, so a forward pass visibly changes the hidden data. -/
def onesOps : TorchOps :=
  { lstm_cell := fun x h =>
      (x, ({ h.1 with data := List.replicate h.1.data.length 1 },
           { h.2 with data := List.replicate h.2.data.length 1 }))
    gru_cell := fun x h => (x, { h with data := List.replicate h.data.length 1 })
    drop := fun t => t
    lin := fun t => t }

/-- A small concrete LSTM variant instance. -/
def lstm0 : LSTMnet := LSTMnet.init 1 1 1 1 1 0

/-- A small concrete GRU variant instance. -/
def gru0 : GRUnet := GRUnet.init 1 1 1 1 1 0

/-- A small concrete input tensor. -/
def x0 : Tensor := Tensor.zeros [1, 1, 1]

/-- A one-window Stream Batcher over the one-character vocabulary. -/
def dl0 : CharDataLoader :=
  { chardata := cd0
    time_steps := 1
    batch_size := 1
    nb_windows := 1
    windows := fun _ => (Tensor.zeros [1, 1, 1], Tensor.zeros [1])
    pos := 0 }

/-- A small concrete CharParrot around the GRU variant. -/
def parrot0 : CharParrot :=
  { dataloader := dl0
    save_file := none
    model := RNN.gru gru0
    zero_hidden := false
    model_params := []
    optimizer_state := [] }

/-- A training environment over onesOps with inert loss and optimizer. -/
def env1 : TrainEnv :=
  { ops := onesOps
    criterion := fun _ _ => 0
    opt_update := fun a b _ => (a, b) }

/-- An empty checkpoint. -/
def ck0 : Checkpoint := { model := [], optimizer := [] }

/-- A file system with no files. -/
def fsEmpty : String → Option Checkpoint := fun _ => none

/-- A file system holding ck0 at every path. -/
def fsCk : String → Option Checkpoint := fun _ => some ck0

/-- A freshly zeroed tensor has all entries zero. -/
lemma zeros_isZeros (d : List Nat) : (Tensor.zeros d).isZeros = true := by
  show (List.replicate d.prod (0 : Rat)).all (fun q => decide (q = 0)) = true
  rw [List.all_eq_true]
  intro q hq
  have h := List.eq_of_mem_replicate hq
  subst h
  rfl

/-- C1: the claim says that after forward both cell variants hold a hidden
state severed from the differentiation graph.  The code violates this for
the LSTM variant: LSTMnet.detach_hidden evaluates self.hidden[0].detach()
and discards the result, so after a grad-enabled forward pass both stored
LSTM hidden tensors still carry gradient history, while the GRU variant
(which reassigns self.hidden = self.hidden.detach()) conforms, with numeric
values preserved. -/
theorem c1_forward_detach_divergence :
    ((LSTMnet.forward gradOps lstm0 x0).2.hidden.1.grad = true) ∧
    ((LSTMnet.forward gradOps lstm0 x0).2.hidden.2.grad = true) ∧
    ((GRUnet.forward gradOps gru0 x0).2.hidden.grad = false) ∧
    ((GRUnet.forward gradOps gru0 x0).2.hidden.data =
      (gradOps.gru_cell x0 gru0.hidden).2.data) :=
  ⟨rfl, rfl, rfl, rfl⟩

/-- C3 counterexample: loading a nonexistent path does not fail with
FileNotFoundError as the claim states; the source prints an error and calls
exit(1), a SystemExit with status one. -/
theorem c3_load_error_is_system_exit :
    CharParrot.load fsEmpty parrot0 ("model.pt") =
      Except.error (PyExc.systemExit 1) ∧
    isFileNotFound (CharParrot.load fsEmpty parrot0 ("model.pt")) = false :=
  ⟨rfl, rfl⟩

/-- C3 amended: load terminates the run with SystemExit status one (after
printing an error) when the path names no file, and otherwise restores both
the model parameters and the optimizer state in place, leaving every other
component of the CharParrot unchanged. -/
theorem c3_load_missing_file_exits (fs : String → Option Checkpoint)
    (p : CharParrot) (file : String) :
    (fs file = none →
      CharParrot.load fs p file = Except.error (PyExc.systemExit 1)) ∧
    (∀ ck, fs file = some ck →
      CharParrot.load fs p file =
        Except.ok { p with model_params := ck.model,
                           optimizer_state := ck.optimizer }) := by
  constructor
  · intro h
    simp [CharParrot.load, h]
  · intro ck h
    simp [CharParrot.load, h]

/-- C3 witness: both branches of the amended load contract at concrete
inputs. -/
theorem c3_load_missing_file_exits_witness :
    CharParrot.load fsEmpty parrot0 ("a.pt") =
      Except.error (PyExc.systemExit 1) ∧
    CharParrot.load fsCk parrot0 ("a.pt") =
      Except.ok { parrot0 with model_params := ck0.model,
                               optimizer_state := ck0.optimizer } :=
  ⟨(c3_load_missing_file_exits fsEmpty parrot0 ("a.pt")).1 rfl,
   (c3_load_missing_file_exits fsCk parrot0 ("a.pt")).2 ck0 rfl⟩

/-- C6: when nb_layers is one the internal recurrent-layer dropout argument
stored for the nn module is forced to zero at construction for both
variants, even for a nonzero requested dropout, so the library dropout
warning is never triggered. -/
theorem c6_single_layer_dropout_forced_zero
    (input_size output_size hidden_size batch_size nb_layers : Nat)
    (dropout : Rat) (h : nb_layers = 1) :
    (LSTMnet.init input_size output_size hidden_size batch_size nb_layers
        dropout).lstm_dropout = 0 ∧
    (GRUnet.init input_size output_size hidden_size batch_size nb_layers
        dropout).gru_dropout = 0 ∧
    rnn_dropout_warning nb_layers
      (LSTMnet.init input_size output_size hidden_size batch_size nb_layers
        dropout).lstm_dropout = false ∧
    rnn_dropout_warning nb_layers
      (GRUnet.init input_size output_size hidden_size batch_size nb_layers
        dropout).gru_dropout = false := by
  subst h
  refine ⟨rfl, rfl, ?_, ?_⟩ <;> rfl

/-- C6 witness: a single-layer construction with dropout one half. -/
theorem c6_single_layer_dropout_forced_zero_witness :
    (LSTMnet.init 2 2 3 4 1 (1 / 2)).lstm_dropout = 0 ∧
    (GRUnet.init 2 2 3 4 1 (1 / 2)).gru_dropout = 0 ∧
    rnn_dropout_warning 1 (LSTMnet.init 2 2 3 4 1 (1 / 2)).lstm_dropout = false ∧
    rnn_dropout_warning 1 (GRUnet.init 2 2 3 4 1 (1 / 2)).gru_dropout = false :=
  c6_single_layer_dropout_forced_zero 2 2 3 4 1 (1 / 2) rfl

/-- C9: set_mode with any mode other than train or generate falls through
both branches of both variants (and of the dispatching wrapper) and leaves
the model, in particular its hidden state, unchanged; being a total
function, the embedded set_mode raises nothing and reports nothing. -/
theorem c9_unknown_mode_is_noop (m : LSTMnet) (g : GRUnet) (r : RNN)
    (mode : String) (h1 : mode ≠ "train") (h2 : mode ≠ "generate") :
    m.set_mode mode = m ∧ g.set_mode mode = g ∧ r.set_mode mode = r := by
  refine ⟨?_, ?_, ?_⟩
  · simp [LSTMnet.set_mode, h1, h2]
  · simp [GRUnet.set_mode, h1, h2]
  · cases r with
    | lstm net => simp [RNN.set_mode, LSTMnet.set_mode, h1, h2]
    | gru net => simp [RNN.set_mode, GRUnet.set_mode, h1, h2]

/-- C9 witness: the mode string eval is neither train nor generate and is
left as a no-op on concrete models. -/
theorem c9_unknown_mode_is_noop_witness :
    lstm0.set_mode ("eval") = lstm0 ∧ gru0.set_mode ("eval") = gru0 ∧
    (RNN.gru gru0).set_mode ("eval") = RNN.gru gru0 :=
  c9_unknown_mode_is_noop lstm0 gru0 (RNN.gru gru0) ("eval")
    (by decide) (by decide)

/-- C8: detach_hidden with zero=True rebuilds the hidden state with
_make_hidden(self.batch_size), the construction-time batch size, whatever
the current hidden state is; in particular right after set_mode(generate)
(hidden batch extent one) it comes back zeroed at the training batch
size. -/
theorem c8_detach_zero_uses_train_batch_size (m : LSTMnet) (g : GRUnet) :
    (m.detach_hidden true).hidden = m.make_hidden m.batch_size ∧
    (g.detach_hidden true).hidden = g.make_hidden g.batch_size ∧
    ((m.set_mode ("generate")).detach_hidden true).hidden =
      (Tensor.zeros [m.nb_layers, m.batch_size, m.hidden_size],
       Tensor.zeros [m.nb_layers, m.batch_size, m.hidden_size]) ∧
    ((g.set_mode ("generate")).detach_hidden true).hidden =
      Tensor.zeros [g.nb_layers, g.batch_size, g.hidden_size] := by
  refine ⟨rfl, rfl, ?_, ?_⟩ <;>
    simp [LSTMnet.set_mode, GRUnet.set_mode, LSTMnet.detach_hidden,
      GRUnet.detach_hidden, LSTMnet.make_hidden, GRUnet.make_hidden]

/-- C7: after set_mode(train) the hidden state is zeroed tensors of shape
(nb_layers, batch_size, hidden_size), after set_mode(generate) of shape
(nb_layers, 1, hidden_size) - two tensors for the LSTM variant, one for the
GRU variant - and a forward pass leaves the hidden shape unchanged whenever
the library recurrent kernels respect their contract of returning a hidden
state shaped like the one passed in. -/
theorem c7_hidden_shape_lifecycle (m : LSTMnet) (g : GRUnet) (ops : TorchOps)
    (x : Tensor)
    (hL : ∀ xx hh, (ops.lstm_cell xx hh).2.1.dims = (hh : Tensor × Tensor).1.dims ∧
                   (ops.lstm_cell xx hh).2.2.dims = hh.2.dims)
    (hG : ∀ xx hh, (ops.gru_cell xx hh).2.dims = (hh : Tensor).dims) :
    ((m.set_mode ("train")).hidden.1.dims =
        [m.nb_layers, m.batch_size, m.hidden_size] ∧
      (m.set_mode ("train")).hidden.2.dims =
        [m.nb_layers, m.batch_size, m.hidden_size] ∧
      (m.set_mode ("train")).hidden.1.isZeros = true ∧
      (m.set_mode ("train")).hidden.2.isZeros = true) ∧
    ((m.set_mode ("generate")).hidden.1.dims =
        [m.nb_layers, 1, m.hidden_size] ∧
      (m.set_mode ("generate")).hidden.2.dims =
        [m.nb_layers, 1, m.hidden_size] ∧
      (m.set_mode ("generate")).hidden.1.isZeros = true ∧
      (m.set_mode ("generate")).hidden.2.isZeros = true) ∧
    ((g.set_mode ("train")).hidden.dims =
        [g.nb_layers, g.batch_size, g.hidden_size] ∧
      (g.set_mode ("train")).hidden.isZeros = true) ∧
    ((g.set_mode ("generate")).hidden.dims =
        [g.nb_layers, 1, g.hidden_size] ∧
      (g.set_mode ("generate")).hidden.isZeros = true) ∧
    ((LSTMnet.forward ops m x).2.hidden.1.dims = m.hidden.1.dims ∧
      (LSTMnet.forward ops m x).2.hidden.2.dims = m.hidden.2.dims) ∧
    (GRUnet.forward ops g x).2.hidden.dims = g.hidden.dims := by
  have e1 : (LSTMnet.forward ops m x).2.hidden = (ops.lstm_cell x m.hidden).2 :=
    rfl
  have e2 : (GRUnet.forward ops g x).2.hidden =
      ((ops.gru_cell x g.hidden).2).detach := rfl
  refine ⟨⟨rfl, rfl, zeros_isZeros _, zeros_isZeros _⟩,
    ⟨rfl, rfl, zeros_isZeros _, zeros_isZeros _⟩,
    ⟨rfl, zeros_isZeros _⟩, ⟨rfl, zeros_isZeros _⟩, ⟨?_, ?_⟩, ?_⟩
  · rw [e1]
    exact (hL x m.hidden).1
  · rw [e1]
    exact (hL x m.hidden).2
  · rw [e2]
    exact hG x g.hidden

/-- C7 witness: the lifecycle at a concrete model pair under the identity
kernels, which respect the shape contract. -/
theorem c7_hidden_shape_lifecycle_witness :
    ((lstm0.set_mode ("train")).hidden.1.dims = [1, 1, 1] ∧
      (lstm0.set_mode ("train")).hidden.2.dims = [1, 1, 1] ∧
      (lstm0.set_mode ("train")).hidden.1.isZeros = true ∧
      (lstm0.set_mode ("train")).hidden.2.isZeros = true) ∧
    ((lstm0.set_mode ("generate")).hidden.1.dims = [1, 1, 1] ∧
      (lstm0.set_mode ("generate")).hidden.2.dims = [1, 1, 1] ∧
      (lstm0.set_mode ("generate")).hidden.1.isZeros = true ∧
      (lstm0.set_mode ("generate")).hidden.2.isZeros = true) ∧
    ((gru0.set_mode ("train")).hidden.dims = [1, 1, 1] ∧
      (gru0.set_mode ("train")).hidden.isZeros = true) ∧
    ((gru0.set_mode ("generate")).hidden.dims = [1, 1, 1] ∧
      (gru0.set_mode ("generate")).hidden.isZeros = true) ∧
    ((LSTMnet.forward idOps lstm0 x0).2.hidden.1.dims = lstm0.hidden.1.dims ∧
      (LSTMnet.forward idOps lstm0 x0).2.hidden.2.dims = lstm0.hidden.2.dims) ∧
    (GRUnet.forward idOps gru0 x0).2.hidden.dims = gru0.hidden.dims :=
  c7_hidden_shape_lifecycle lstm0 gru0 idOps x0
    (fun _ _ => ⟨rfl, rfl⟩) (fun _ _ => rfl)

/-- Scanning from any offset finds an index for every member character. -/
lemma indexFrom_isSome {c : Char} :
    ∀ (l : List Char) (k : Nat), c ∈ l → (indexFrom c l k).isSome = true
  | [], _, h => by cases h
  | a :: as, k, h => by
    by_cases hac : a = c
    · simp [indexFrom, hac]
    · have hc : c ∈ as := by
        rcases List.mem_cons.mp h with h1 | h1
        · exact absurd h1.symm hac
        · exact h1
      simp only [indexFrom, if_neg hac]
      exact indexFrom_isSome as (k + 1) hc

/-- Encoding succeeds on text drawn entirely from the vocabulary. -/
lemma encode_isSome (cd : CharData) :
    ∀ (text : List Char), (∀ c ∈ text, c ∈ cd.characters) →
      (cd.encode text).isSome = true
  | [], _ => rfl
  | c :: cs, h => by
    have h1 : c ∈ cd.characters := h c (List.mem_cons_self c cs)
    have h2 : ∀ a ∈ cs, a ∈ cd.characters :=
      fun a ha => h a (List.mem_cons_of_mem c ha)
    have i1 := indexFrom_isSome cd.characters 0 h1
    have i2 := encode_isSome cd cs h2
    rcases Option.isSome_iff_exists.mp i1 with ⟨i, hi⟩
    rcases Option.isSome_iff_exists.mp i2 with ⟨rest, hrest⟩
    unfold CharData.encode
    rw [hi, hrest]
    rfl

/-- make_sequence succeeds on text drawn entirely from the vocabulary. -/
lemma make_sequence_isSome (cd : CharData) (text : List Char)
    (h : ∀ c ∈ text, c ∈ cd.characters) :
    ∃ t, cd.make_sequence text = some t := by
  rcases Option.isSome_iff_exists.mp (encode_isSome cd text h) with ⟨idxs, hidxs⟩
  refine ⟨{ dims := [text.length, cd.nb_characters],
            data := idxs.flatMap (fun i => (List.range cd.nb_characters).map
              (fun j => if j = i then (1 : Rat) else 0)),
            grad := false }, ?_⟩
  simp [CharData.make_sequence, hidxs]

/-- The Python slice text[-prev_chars:] only yields characters of text. -/
lemma mem_of_mem_pyTakeLast {α : Type} {p : Nat} {xs : List α} {c : α}
    (h : c ∈ pyTakeLast p xs) : c ∈ xs := by
  unfold pyTakeLast at h
  by_cases hp : p = 0
  · simpa [hp] using h
  · simp only [if_neg hp] at h
    exact List.drop_subset _ _ h

/-- When every buffer character is in the vocabulary and the sampling draw
always lands inside the vocabulary, the generation loop completes and grows
the buffer by exactly one character per step. -/
lemma generateLoop_total (ops : TorchOps) (sample : Tensor → Nat)
    (cd : CharData) (prev_chars : Nat) (temperature : Rat)
    (hs : ∀ t, sample t < cd.characters.length) :
    ∀ (n : Nat) (model : RNN) (text : List Char),
      (∀ c ∈ text, c ∈ cd.characters) →
      ∃ r, generateLoop ops sample cd prev_chars temperature model text n =
          some r ∧ r.1.length = text.length + n
  | 0, model, text, _ => ⟨(text, model), rfl, by simp⟩
  | n + 1, model, text, h => by
    have hpred : ∀ c ∈ pyTakeLast prev_chars text, c ∈ cd.characters :=
      fun c hc => h c (mem_of_mem_pyTakeLast hc)
    rcases make_sequence_isSome cd (pyTakeLast prev_chars text) hpred with ⟨sq, hsq⟩
    have hch : cd.characters.get?
        (sample ((((RNN.forward ops model sq.unsqueeze0).1.chunkLastDim1
          prev_chars).squeeze1).divScalar temperature)) =
        some (cd.characters.get ⟨sample ((((RNN.forward ops model
          sq.unsqueeze0).1.chunkLastDim1 prev_chars).squeeze1).divScalar
          temperature), hs _⟩) :=
      List.get?_eq_get (hs _)
    have hmem : cd.characters.get ⟨sample ((((RNN.forward ops model
        sq.unsqueeze0).1.chunkLastDim1 prev_chars).squeeze1).divScalar
        temperature), hs _⟩ ∈ cd.characters := List.get_mem _ _ _
    have htext : ∀ c ∈ text ++ [cd.characters.get ⟨sample ((((RNN.forward ops
        model sq.unsqueeze0).1.chunkLastDim1 prev_chars).squeeze1).divScalar
        temperature), hs _⟩], c ∈ cd.characters := by
      intro c hc
      rcases List.mem_append.mp hc with h1 | h1
      · exact h c h1
      · rw [List.mem_singleton.mp h1]
        exact hmem
    rcases generateLoop_total ops sample cd prev_chars temperature hs n
        (RNN.forward ops model sq.unsqueeze0).2
        (text ++ [cd.characters.get ⟨sample ((((RNN.forward ops model
          sq.unsqueeze0).1.chunkLastDim1 prev_chars).squeeze1).divScalar
          temperature), hs _⟩]) htext with ⟨r, hr, hlen⟩
    refine ⟨r, ?_, ?_⟩
    · simp only [generateLoop, hsq, hch]
      exact hr
    · rw [hlen]
      simp only [List.length_append, List.length_singleton]
      omega

/-- C2 counterexample: a concrete generation run in which the internal
buffer reaches the claimed seed-plus-length content but the Python return
value of generate is None, not the buffer. -/
theorem c2_generate_return_value_is_none :
    (CharParrot.generate idOps (fun _ => 0) parrot0 ['a'] 2 1 1).map
      (fun r => (r.1, r.2.1)) = some (['a', 'a', 'a'], none) := rfl

/-- C2 amended: for a seed drawn from the vocabulary, a context window
between one and the seed length, and an in-vocabulary sampling draw,
generate builds the output buffer of length len(seed) + length and prints
it, but its Python return value is None, not the buffer. -/
theorem c2_generate_builds_buffer_returns_none (ops : TorchOps)
    (sample : Tensor → Nat) (p : CharParrot) (seed : List Char)
    (length prev_chars : Nat) (temperature : Rat)
    (h1 : ∀ c ∈ seed, c ∈ p.dataloader.chardata.characters)
    (h2 : ∀ t, sample t < p.dataloader.chardata.characters.length)
    (h3 : 1 ≤ prev_chars) (h4 : prev_chars ≤ seed.length) :
    (CharParrot.generate ops sample p seed length prev_chars temperature).map
      (fun r => (r.1.length, r.2.1)) = some (seed.length + length, none) := by
  rcases generateLoop_total ops sample p.dataloader.chardata prev_chars
      temperature h2 length (p.model.set_mode ("generate")) seed h1 with
    ⟨r, hr, hlen⟩
  simp only [CharParrot.generate]
  rw [hr]
  simp [hlen]

/-- C2 witness: the amended generate contract at a concrete run of five
steps from a one-character seed. -/
theorem c2_generate_builds_buffer_witness :
    (CharParrot.generate idOps (fun _ => 0) parrot0 ['a'] 5 1 1).map
      (fun r => (r.1.length, r.2.1)) = some (1 + 5, none) :=
  c2_generate_builds_buffer_returns_none idOps (fun _ => 0) parrot0 ['a'] 5 1 1
    (by decide) (fun _ => Nat.zero_lt_one) (by decide) (by decide)

/-- Every epoch body ends by resetting the Stream Batcher cursor. -/
lemma runEpoch_pos (env : TrainEnv) (p : CharParrot) :
    (runEpoch env p).1.dataloader.pos = 0 := rfl

/-- The epoch loop preserves a reset cursor between epochs. -/
lemma runEpochs_pos (env : TrainEnv) :
    ∀ (n : Nat) (s : CharParrot × Rat), s.1.dataloader.pos = 0 →
      (runEpochs env n s).1.dataloader.pos = 0
  | 0, _, h => h
  | n + 1, s, _ => runEpochs_pos env n _ (runEpoch_pos env s.1)

/-- set_mode(train) leaves every hidden tensor of either variant zeroed. -/
lemma set_mode_train_zeroed (r : RNN) :
    ((r.set_mode ("train")).hiddenList.all Tensor.isZeros) = true := by
  cases r with
  | lstm m =>
    simp [RNN.set_mode, RNN.hiddenList, LSTMnet.set_mode, LSTMnet.make_hidden,
      zeros_isZeros]
  | gru m =>
    simp [RNN.set_mode, RNN.hiddenList, GRUnet.set_mode, GRUnet.make_hidden,
      zeros_isZeros]

/-- C4 counterexample: with the hidden-carrying policy (zero_hidden false)
and a recurrent kernel that moves the hidden state off zero, the model state
at the start of the second epoch is not zeroed: set_mode(train) runs once
before the first epoch, not at the start of every epoch. -/
theorem c4_second_epoch_hidden_not_zeroed :
    ((trainEpochStart env1 parrot0 2).model.hiddenList.all Tensor.isZeros)
      = false := rfl

/-- C4 amended: set_mode(train) and a Stream Batcher reset run once before
the first epoch, and the batcher is reset again at the end of every epoch,
so at the start of every epoch (before any of its windows) the batcher
cursor is at zero; the hidden state is zeroed and sized to the training
batch size before the first epoch, but it carries across later epoch
boundaries rather than being rebuilt per epoch. -/
theorem c4_epoch_start_state (env : TrainEnv) (p : CharParrot)
    (k epochs : Nat) (h1 : 1 ≤ k) (h2 : k ≤ epochs) :
    (trainEpochStart env p k).dataloader.pos = 0 ∧
    trainEpochStart env p 1 = trainInit p ∧
    ((trainInit p).model.hiddenList.all Tensor.isZeros = true) ∧
    (CharParrot.train env p epochs).1.dataloader.pos = 0 := by
  refine ⟨?_, rfl, ?_, ?_⟩
  · exact runEpochs_pos env (k - 1) (trainInit p, 0) rfl
  · exact set_mode_train_zeroed p.model
  · exact runEpochs_pos env epochs (trainInit p, 0) rfl

/-- C4 witness: the amended epoch-start contract at the concrete
environment, for the second of two epochs. -/
theorem c4_epoch_start_state_witness :
    (trainEpochStart env1 parrot0 2).dataloader.pos = 0 ∧
    trainEpochStart env1 parrot0 1 = trainInit parrot0 ∧
    ((trainInit parrot0).model.hiddenList.all Tensor.isZeros = true) ∧
    (CharParrot.train env1 parrot0 2).1.dataloader.pos = 0 :=
  c4_epoch_start_state env1 parrot0 2 2 (by decide) (by decide)

/-- A contiguous extract of a list, written as a drop-and-take, equals the
positionwise reads at the same offsets. -/
lemma take_drop_eq_map_getD (xs : List Rat) (m c : Nat)
    (h : m + c ≤ xs.length) :
    (xs.drop m).take c = (List.range c).map (fun j => xs.getD (m + j) 0) := by
  apply List.ext_getElem
  · simp [List.length_take, List.length_drop, List.length_range]
    omega
  · intro i h1 h2
    simp only [List.getElem_take, List.getElem_drop, List.getElem_map,
      List.getElem_range]
    rw [List.getD_eq_getElem]

/-- flatMap only depends on the function on members of the list. -/
lemma flatMap_congr_mem {α β : Type} :
    ∀ (l : List α) (f g : α → List β), (∀ x ∈ l, f x = g x) →
      l.flatMap f = l.flatMap g
  | [], _, _, _ => rfl
  | a :: as, f, g, h => by
    simp only [List.flatMap_cons]
    rw [h a (List.mem_cons_self a as),
      flatMap_congr_mem as f g (fun x hx => h x (List.mem_cons_of_mem a hx))]

/-- Splitting a (batch, time, vocabulary) logits tensor into time_steps
chunks, keeping the last and squeezing it - the exact expression of the
training loss in CharParrot.train - yields precisely the final-timestep
entries named by the spec. -/
lemma chunkLast_squeeze_eq_spec (t : Tensor) (b L n : Nat)
    (hd : t.dims = [b, L, n]) (hlen : b * L * n ≤ t.data.length)
    (hL : 1 ≤ L) :
    (t.chunkLastDim1 L).squeeze1 = specFinalTimestep t := by
  obtain ⟨M, rfl⟩ : ∃ M, L = M + 1 := ⟨L - 1, by omega⟩
  have hs : ((M + 1) + (M + 1) - 1) / (M + 1) = 1 := by
    rw [show (M + 1) + (M + 1) - 1 = M + (M + 1) by omega,
      Nat.add_div_right _ (Nat.succ_pos M), Nat.div_eq_of_lt (by omega)]
  have hchunk : t.chunkLastDim1 (M + 1) =
      { dims := [b, 1, n]
        data := (List.range b).flatMap (fun i =>
          ((t.data.drop (i * ((M + 1) * n) + M * n)).take n))
        grad := t.grad } := by
    simp only [Tensor.chunkLastDim1, hd]
    rw [hs]
    simp [List.prod_cons, List.prod_nil]
  rw [hchunk]
  simp only [Tensor.squeeze1, specFinalTimestep, hd]
  simp only [Tensor.mk.injEq, Nat.add_sub_cancel]
  refine ⟨trivial, ?_, trivial⟩
  apply flatMap_congr_mem
  intro i hi
  have hib : i < b := List.mem_range.mp hi
  have hbound : i * ((M + 1) * n) + M * n + n ≤ t.data.length := by
    have h1 : (i + 1) * ((M + 1) * n) ≤ b * ((M + 1) * n) :=
      Nat.mul_le_mul_right _ (by omega)
    have h2 : i * ((M + 1) * n) + M * n + n = (i + 1) * ((M + 1) * n) := by
      ring
    have h3 : b * ((M + 1) * n) = b * (M + 1) * n := by
      ring
    omega
  rw [take_drop_eq_map_getD t.data (i * ((M + 1) * n) + M * n) n hbound]

/-- C5: the training loss expression of CharParrot.train feeds the criterion
exactly the final-timestep slice of the window logits, so the loss is the
cross entropy (computed by the criterion instance) of the final-timestep
prediction against the single-character target, evaluated once per window,
and logits at earlier timesteps of the window cannot affect it. -/
theorem c5_loss_final_timestep_only (criterion : Tensor → Tensor → Rat)
    (b L n : Nat) (outputs outputs2 target : Tensor)
    (hd : outputs.dims = [b, L, n]) (hd2 : outputs2.dims = [b, L, n])
    (hlen : b * L * n ≤ outputs.data.length)
    (hlen2 : b * L * n ≤ outputs2.data.length)
    (hL : 1 ≤ L) (hg : outputs.grad = outputs2.grad)
    (hagree : ∀ i j, i < b → j < n →
      outputs.data.getD (i * (L * n) + (L - 1) * n + j) 0 =
      outputs2.data.getD (i * (L * n) + (L - 1) * n + j) 0) :
    windowLoss criterion L outputs target =
      criterion (specFinalTimestep outputs) target ∧
    windowLoss criterion L outputs target =
      windowLoss criterion L outputs2 target := by
  have e1 := chunkLast_squeeze_eq_spec outputs b L n hd hlen hL
  have e2 := chunkLast_squeeze_eq_spec outputs2 b L n hd2 hlen2 hL
  have espec : specFinalTimestep outputs = specFinalTimestep outputs2 := by
    simp only [specFinalTimestep, hd, hd2]
    simp only [Tensor.mk.injEq]
    refine ⟨trivial, ?_, hg⟩
    apply flatMap_congr_mem
    intro i hi
    apply List.map_congr_left
    intro j hj
    exact hagree i j (List.mem_range.mp hi) (List.mem_range.mp hj)
  constructor
  · unfold windowLoss
    rw [e1]
  · unfold windowLoss
    rw [e1, e2, espec]

/-- A criterion reading only the first entry of the prediction tensor. -/
def crit5 : Tensor → Tensor → Rat := fun a _ => a.data.getD 0 0

/-- A concrete two-timestep logits window. -/
def out5a : Tensor := { dims := [1, 2, 1], data := [5, 7], grad := false }

/-- The same window with a different logit at the earlier timestep. -/
def out5b : Tensor := { dims := [1, 2, 1], data := [9, 7], grad := false }

/-- A concrete single-character target batch. -/
def tgt5 : Tensor := Tensor.zeros [1]

/-- C5 witness: the final-timestep loss contract on two concrete windows
that differ only at the earlier timestep. -/
theorem c5_loss_final_timestep_only_witness :
    windowLoss crit5 2 out5a tgt5 = crit5 (specFinalTimestep out5a) tgt5 ∧
    windowLoss crit5 2 out5a tgt5 = windowLoss crit5 2 out5b tgt5 :=
  c5_loss_final_timestep_only crit5 1 2 1 out5a out5b tgt5 rfl rfl
    (by decide) (by decide) (by decide) rfl
    (fun i j hi hj => by
      obtain rfl : i = 0 := by omega
      obtain rfl : j = 0 := by omega
      rfl)
